import Mathlib

/-!
Verification of `scripts/photopea_tab.py` (sd-webui-sugarsnap): a shallow
embedding of the plugin's lifecycle hooks — asset provisioning, settings
registration, tab composition and static mounting — together with theorems
about the behaviour the specification claims.

Python effects are made explicit: a call into an external collaborator that
may raise is modelled as an `Except PyExc` value supplied as a parameter, and
a Python exception value records whether it derives from `Exception` (an
`except Exception:` clause catches exactly those; `KeyboardInterrupt` and
`SystemExit` derive only from `BaseException` and are not caught by it).
-/

namespace PhotopeaTab

/-- A Python exception value. `isBaseOnly = true` means the exception derives
from `BaseException` but not from `Exception` (e.g. `KeyboardInterrupt`),
so an `except Exception:` clause does not catch it. -/
structure PyExc where
  isBaseOnly : Bool
  name : String
deriving DecidableEq, Repr

/-- Levels of the Python `logging` records this module emits. -/
inductive LogLevel where
  | info
  | warning
  | critical
deriving DecidableEq, Repr

/-- One emitted log record. -/
structure LogRecord where
  level : LogLevel
  msg : String
deriving DecidableEq, Repr

/-- Path join, modelling `pathlib.Path.joinpath`. -/
def joinPath (a b : String) : String := a ++ "/" ++ b

/-- `photopea_ext_dir = Path(scripts.basedir())`: the install directory is a
value obtained from the host, so it is threaded as a parameter `basedir`. -/
def photopea_ext_dir (basedir : String) : String := basedir

/-- `photopea_app_dir = photopea_ext_dir.joinpath("app")`. -/
def photopea_app_dir (basedir : String) : String :=
  joinPath (photopea_ext_dir basedir) "app"

/-- Behaviour of `launch_utils.git_clone(url, dir, name, commithash)`, an
external collaborator that may raise. `none` for the commit hash models
Python `None` (meaning "latest"). -/
def GitClone : Type :=
  String → String → String → Option String → Except PyExc Unit

/-- `update_photopea(repo_url, target_dir, commit_hash)`: one best-effort
`git_clone` call; `except Exception:` turns any `Exception`-derived failure
into a critical log record and `False`, while a `BaseException`-only
exception is not caught. Returns the boolean together with the log records
emitted. The `commit_hash` parameter is typed `Option String` because the
caller passes Python `None` for an empty revision. -/
def update_photopea (gitClone : GitClone) (repo_url : String)
    (target_dir : String) (commit_hash : Option String) :
    Except PyExc (Bool × List LogRecord) :=
  match gitClone repo_url target_dir "Photopea" commit_hash with
  | .ok _ => .ok (true, [])
  | .error e =>
    if e.isBaseOnly then .error e
    else .ok (false, [⟨LogLevel.critical, "Failed to update Photopea, will not load!"⟩])

/-- The contents of `shared.opts.data`, the host's raw settings dictionary
(string-valued for the keys this module reads). -/
def SettingsData : Type := String → Option String

/-- `_get_setting(name, default) = shared.opts.data.get(f"photopea_{name}", default)`. -/
def _get_setting (data : SettingsData) (name : String) (default : String) : String :=
  (data ("photopea_" ++ name)).getD default

/-- `on_before_ui()`: reads the repo URL and commit hash settings (with their
fixed defaults), translates an empty commit hash to `None`, and runs
`update_photopea`; its result is the value assigned to `update_success`. -/
def on_before_ui (gitClone : GitClone) (basedir : String) (data : SettingsData) :
    Except PyExc (Bool × List LogRecord) :=
  let repo_url :=
    _get_setting data "repo_url" "https://git.nixnet.services/DUOLabs333/Photopea-Offline.git"
  let commit_hash := _get_setting data "commit_hash" ""
  update_photopea gitClone repo_url (photopea_app_dir basedir)
    (if commit_hash ≠ "" then some commit_hash else none)

/-- A `StaticFiles(directory=..., html=...)` application object. -/
structure StaticFilesApp where
  directory : String
  html : Bool
deriving DecidableEq, Repr

/-- A completed `app.mount(path=..., app=..., name=...)` call. -/
structure MountEvt where
  path : String
  app : StaticFilesApp
  name : String
deriving DecidableEq, Repr

/-- Behaviour of the two external calls `on_app_started` makes: the
`StaticFiles` constructor (which checks the directory and may raise) and
`FastAPI.mount` (which may raise). -/
structure Collab where
  staticFilesCheck : String → Bool → Except PyExc Unit
  mountCall : String → StaticFilesApp → String → Except PyExc Unit

/-- `on_app_started(_, app)`: if `update_success is True`, builds a
`StaticFiles` app over `<app dir>/www.photopea.com` with `html=True` and
mounts it at `/photopea` under the name "photopea"; otherwise mounts nothing
and logs one warning. Returns the mounts performed and the log records
emitted, or the exception that propagated. -/
def on_app_started (update_success : Bool) (c : Collab) (basedir : String) :
    Except PyExc (List MountEvt × List LogRecord) :=
  if update_success then
    match c.staticFilesCheck (joinPath (photopea_app_dir basedir) "www.photopea.com") true with
    | .error e => .error e
    | .ok _ =>
      match c.mountCall "/photopea"
          ⟨joinPath (photopea_app_dir basedir) "www.photopea.com", true⟩ "photopea" with
      | .error e => .error e
      | .ok _ =>
        .ok ([⟨"/photopea", ⟨joinPath (photopea_app_dir basedir) "www.photopea.com", true⟩,
              "photopea"⟩], [])
  else
    .ok ([], [⟨LogLevel.warning, "Photopea not loaded due to update failure!"⟩])

/-- A collaborator whose static-files check and mount call both succeed. -/
def okCollab : Collab where
  staticFilesCheck := fun _ _ => .ok ()
  mountCall := fun _ _ _ => .ok ()

/-- A collaborator whose mount call raises an ordinary `Exception`. -/
def badMountCollab : Collab where
  staticFilesCheck := fun _ _ => .ok ()
  mountCall := fun _ _ _ => .error ⟨false, "RuntimeError"⟩

/-- A clone behaviour that always succeeds. -/
def okGit : GitClone := fun _ _ _ _ => .ok ()

/-- A clone behaviour that raises `KeyboardInterrupt`, which derives from
`BaseException` but not from `Exception`. -/
def kbGit : GitClone := fun _ _ _ _ => .error ⟨true, "KeyboardInterrupt"⟩

/-- A clone behaviour that raises an ordinary `Exception`. -/
def failGit : GitClone := fun _ _ _ _ => .error ⟨false, "RuntimeError"⟩

/-- A registered `shared.OptionInfo`: default value, label, UI component
("Textbox"), its component args and its settings section. -/
structure OptionInfo where
  default : String
  label : String
  component : String
  interactive : Bool
  maxLines : Nat
  optSection : String × String
deriving DecidableEq, Repr

/-- The host's options store, a key-value namespace. -/
abbrev OptStore : Type := List (String × OptionInfo)

/-- Modelled from the spec: `shared.opts.add_option` (external collaborator,
not in this repository) registers a key into the key-value settings
namespace; repeated registration of the same key overwrites the previous
registration (last registration wins), other keys are untouched. -/
def add_option (key : String) (info : OptionInfo) : OptStore → OptStore
  | [] => [(key, info)]
  | (k, v) :: rest =>
    if k = key then (k, info) :: rest else (k, v) :: add_option key info rest

/-- Lookup in the options store. -/
def lookupOpt : OptStore → String → Option OptionInfo
  | [], _ => none
  | (k, v) :: rest, key => if k = key then some v else lookupOpt rest key

/-- The `OptionInfo` registered for `photopea_repo_url`. -/
def repoUrlInfo : OptionInfo where
  default := "https://git.nixnet.services/DUOLabs333/Photopea-Offline.git"
  label := "Photopea repository URL"
  component := "Textbox"
  interactive := true
  maxLines := 1
  optSection := ("photopea", "Photopea")

/-- The `OptionInfo` registered for `photopea_commit_hash`. -/
def commitHashInfo : OptionInfo where
  default := ""
  label := "Photopea repository commit hash"
  component := "Textbox"
  interactive := true
  maxLines := 1
  optSection := ("photopea", "Photopea")

/-- `on_ui_settings()`: registers `photopea_repo_url` and then
`photopea_commit_hash` into the options store. -/
def on_ui_settings (s : OptStore) : OptStore :=
  add_option "photopea_commit_hash" commitHashInfo
    (add_option "photopea_repo_url" repoUrlInfo s)

/-- Does `need` stand at the start of `hay`? -/
def subStarts : List Char → List Char → Bool
  | [], _ => true
  | _ :: _, [] => false
  | n :: ns, h :: hs => n == h && subStarts ns hs

/-- Does `need` occur contiguously anywhere in `hay`? -/
def subAnywhere (need : List Char) : List Char → Bool
  | [] => need.isEmpty
  | h :: hs => subStarts need (h :: hs) || subAnywhere need hs

/-- Python's substring test `need in hay` on strings. -/
def strHasSub (hay need : String) : Bool := subAnywhere need.data hay.data

/-- The `for extension in extensions.active(): if "controlnet" in
extension.name: ... break` loop of `on_ui_tabs`, over the names of the
active extensions: stops at the first name containing "controlnet". -/
def controlnetScanLoop : List String → Bool
  | [] => false
  | name :: rest =>
    if strHasSub name "controlnet" then true else controlnetScanLoop rest

/-- A `gr.Button`. -/
structure Button where
  value : String
  elemId : Option String
  visible : Bool
deriving DecidableEq, Repr

/-- A `gr.Checkbox`. -/
structure Checkbox where
  label : String
  elemId : String
deriving DecidableEq, Repr

/-- A `gr.Dropdown`. -/
structure Dropdown where
  choices : List String
  label : String
  value : String
  interactive : Bool
  visible : Bool
deriving DecidableEq, Repr

/-- A `gr.Slider`. -/
structure Slider where
  minimum : Nat
  maximum : Nat
  value : Nat
  step : Nat
  label : String
  interactive : Bool
  elemId : String
deriving DecidableEq, Repr

/-- A `gr.HTML` block. -/
structure HtmlComp where
  content : String
  visible : Bool
deriving DecidableEq, Repr

/-- One `.click(...)` wiring: the triggering component, the input components
passed to the browser-side action, and the `_js` string. -/
structure ClickBinding where
  trigger : String
  inputs : List String
  js : String
deriving DecidableEq, Repr

/-- The components and wiring `on_ui_tabs` builds. -/
structure TabUI where
  controlnet_exists : Bool
  show_photopea : Button
  activeLayerOnly : Checkbox
  num_controlnet_models : Int
  select_target_index : Dropdown
  heightSlider : Slider
  cnMissingHelp : HtmlComp
  send_t2i_cn : Button
  send_extras : Button
  send_i2i : Button
  send_i2i_cn : Button
  send_selection_inpaint : Button
  supportHtml : HtmlComp
  clicks : List ClickBinding
  tabLabel : String
  tabElemId : String
deriving DecidableEq, Repr

/-- The `gr.HTML` text shown when the companion extension is missing. -/
def cnHelpHtml : String :=
  "<b>Controlnet extension not found!</b> Either <a href=\"https://github.com/Mikubill/sd-webui-controlnet\" target=\"_blank\">install it</a>, or activate it under Settings."

/-- The unconditional support `gr.HTML` text. -/
def supportHtmlText : String :=
  "<font size=\"small\"><p align=\"right\">Consider supporting Photopea by <a href=\"https://www.photopea.com/api/accounts\" target=\"_blank\">going Premium</a>!</font></p>"

/-- `on_ui_tabs()`: composes the tab. `exts` is the list of names of
`extensions.active()`; `modelsNumRead` is the behaviour of the attribute
read `shared.opts.control_net_max_models_num` (the bare `except:` turns any
raise into the default `1`). -/
def on_ui_tabs (exts : List String) (modelsNumRead : Except PyExc Int) : TabUI :=
  let controlnet_exists := controlnetScanLoop exts
  let num_controlnet_models : Int :=
    match modelsNumRead with
    | .ok v => v
    | .error _ => 1
  { controlnet_exists := controlnet_exists
    show_photopea :=
      { value := "Load Photopea", elemId := some "photopeaLoadButton", visible := true }
    activeLayerOnly :=
      { label := "Active Layer Only", elemId := "photopea-use-active-layer-only" }
    num_controlnet_models := num_controlnet_models
    select_target_index :=
      { choices := (List.range num_controlnet_models.toNat).map (fun i => toString i)
        label := "ControlNet model index"
        value := "0"
        interactive := true
        visible := decide (1 < num_controlnet_models) }
    heightSlider :=
      { minimum := 512, maximum := 2160, value := 768, step := 10
        label := "iFrame height", interactive := true, elemId := "photopeaIframeSlider" }
    cnMissingHelp := { content := cnHelpHtml, visible := !controlnet_exists }
    send_t2i_cn :=
      { value := "Send to txt2img ControlNet", elemId := none, visible := controlnet_exists }
    send_extras := { value := "Send to Extras", elemId := none, visible := true }
    send_i2i := { value := "Send to img2img", elemId := none, visible := true }
    send_i2i_cn :=
      { value := "Send to img2img ControlNet", elemId := none, visible := controlnet_exists }
    send_selection_inpaint :=
      { value := "Inpaint selection", elemId := none, visible := true }
    supportHtml := { content := supportHtmlText, visible := true }
    clicks :=
      [ { trigger := "send_t2i_cn", inputs := ["select_target_index"]
          js := "(i) => \x7bgetAndSendImageToWebUITab('txt2img', true, i)\x7d" },
        { trigger := "send_extras", inputs := ["select_target_index"]
          js := "(i) => \x7bgetAndSendImageToWebUITab('extras', false, i)\x7d" },
        { trigger := "send_i2i", inputs := ["select_target_index"]
          js := "(i) => \x7bgetAndSendImageToWebUITab('img2img', false, i)\x7d" },
        { trigger := "send_i2i_cn", inputs := ["select_target_index"]
          js := "(i) => \x7bgetAndSendImageToWebUITab('img2img', true, i)\x7d" },
        { trigger := "send_selection_inpaint", inputs := []
          js := "sendImageWithMaskSelectionToWebUi" },
        { trigger := "show_photopea", inputs := [], js := "loadPhotopea" } ]
    tabLabel := "Photopea"
    tabElemId := "photopea_embed" }

/-- The `_js` string the source binds for a directional send: built from the
destination tab name and the send-to-controlnet flag. -/
def getAndSendJs (webUiTab : String) (sendToControlnet : Bool) : String :=
  "(i) => \x7bgetAndSendImageToWebUITab('" ++ webUiTab ++ "', "
    ++ (if sendToControlnet then "true" else "false") ++ ", i)\x7d"

/-- The callbacks the module registers at import time, one list per
lifecycle hook (`script_callbacks.on_*` at the bottom of the file). -/
structure Registrations where
  beforeUi : List String
  uiSettings : List String
  uiTabs : List String
  appStarted : List String
deriving DecidableEq, Repr

/-- What the module registers: each hook exactly once. -/
def moduleRegistrations : Registrations where
  beforeUi := ["on_before_ui"]
  uiSettings := ["on_ui_settings"]
  uiTabs := ["on_ui_tabs"]
  appStarted := ["on_app_started"]

/-- The module-level mutable state and the externally visible effects of a
run: the `update_success` flag, the mounts performed so far and the log
records emitted so far. -/
structure RunState where
  update_success : Bool
  mounts : List MountEvt
  logs : List LogRecord

/-- The state right after module load: `update_success = False`, nothing
mounted, nothing logged. -/
def initialRunState : RunState where
  update_success := false
  mounts := []
  logs := []

/-- One host lifecycle hook invocation, carrying the behaviour of the
collaborators the hook consults. -/
inductive HookEvent where
  | beforeUi (g : GitClone) (data : SettingsData)
  | uiSettings
  | uiTabs (exts : List String) (read : Except PyExc Int)
  | appStarted (c : Collab)

/-- Effect of one hook invocation on the module state. A hook that raises
leaves the state as it was at the point of the raise (no assignment to
`update_success`, no mount recorded). -/
def stepHook (basedir : String) (s : RunState) : HookEvent → RunState
  | .beforeUi g data =>
    match on_before_ui g basedir data with
    | .ok (b, ls) => { s with update_success := b, logs := s.logs ++ ls }
    | .error _ => s
  | .uiSettings => s
  | .uiTabs _ _ => s
  | .appStarted c =>
    match on_app_started s.update_success c basedir with
    | .ok (ms, ls) => { s with mounts := s.mounts ++ ms, logs := s.logs ++ ls }
    | .error _ => s

/-- Run a sequence of hook invocations from a state. -/
def runHooks (basedir : String) (s : RunState) : List HookEvent → RunState
  | [] => s
  | e :: rest => runHooks basedir (stepHook basedir s e) rest

/-- Is this event a before-UI invocation whose provisioning succeeded
(returned `True`)? -/
def isSuccessfulBeforeUi (basedir : String) : HookEvent → Bool
  | .beforeUi g data =>
    match on_before_ui g basedir data with
    | .ok (true, _) => true
    | _ => false
  | _ => false

/-! ## Helper lemmas -/

theorem subStarts_iff (n : List Char) : ∀ h : List Char, subStarts n h = true ↔ n <+: h := by
  induction n with
  | nil => intro h; simp [subStarts]
  | cons a ns ih =>
    intro h
    cases h with
    | nil => simp [subStarts]
    | cons b hs =>
      simp [subStarts, List.cons_prefix_cons, ih, Bool.and_eq_true, beq_iff_eq]

theorem subAnywhere_iff (n : List Char) : ∀ h : List Char, subAnywhere n h = true ↔ n <:+: h := by
  intro h
  induction h with
  | nil => simp [subAnywhere, List.isEmpty_iff]
  | cons b hs ih =>
    simp [subAnywhere, Bool.or_eq_true, subStarts_iff, ih, List.infix_cons_iff]

theorem strHasSub_iff (hay need : String) :
    strHasSub hay need = true ↔ need.data <:+: hay.data :=
  subAnywhere_iff need.data hay.data

theorem controlnetScanLoop_eq_any (exts : List String) :
    controlnetScanLoop exts = exts.any (fun nm => strHasSub nm "controlnet") := by
  induction exts with
  | nil => rfl
  | cons nm rest ih =>
    rw [controlnetScanLoop, List.any_cons, ih]
    cases hsub : strHasSub nm "controlnet" <;> simp [hsub]

theorem lookupOpt_add_option_self (key : String) (i : OptionInfo) :
    ∀ s : OptStore, lookupOpt (add_option key i s) key = some i := by
  intro s
  induction s with
  | nil => simp [add_option, lookupOpt]
  | cons kv rest ih =>
    obtain ⟨k, v⟩ := kv
    by_cases hk : k = key
    · simp [add_option, lookupOpt, hk]
    · simp [add_option, lookupOpt, hk, ih]

theorem lookupOpt_add_option_other (key k2 : String) (i : OptionInfo) (hne : k2 ≠ key) :
    ∀ s : OptStore, lookupOpt (add_option k2 i s) key = lookupOpt s key := by
  intro s
  induction s with
  | nil => simp [add_option, lookupOpt, hne]
  | cons kv rest ih =>
    obtain ⟨k, v⟩ := kv
    by_cases hk : k = k2
    · subst hk
      simp [add_option, lookupOpt, hne, ih]
    · simp [add_option, lookupOpt, hk, ih]

theorem add_option_eq_of_lookup (key : String) (i : OptionInfo) :
    ∀ s : OptStore, lookupOpt s key = some i → add_option key i s = s := by
  intro s
  induction s with
  | nil => intro h; simp [lookupOpt] at h
  | cons kv rest ih =>
    obtain ⟨k, v⟩ := kv
    intro h
    by_cases hk : k = key
    · subst hk
      simp [lookupOpt] at h
      simp [add_option, h]
    · simp [lookupOpt, hk] at h
      simp [add_option, hk, ih h]

theorem update_photopea_ok_of_no_base (g : GitClone) (u d : String) (h : Option String)
    (hg : ∀ e, g u d "Photopea" h = .error e → e.isBaseOnly = false) :
    ∃ r, update_photopea g u d h = .ok r := by
  cases hcall : g u d "Photopea" h with
  | ok v =>
    exact ⟨(true, []), by rw [update_photopea, hcall]⟩
  | error e =>
    refine ⟨(false, [⟨LogLevel.critical, "Failed to update Photopea, will not load!"⟩]), ?_⟩
    rw [update_photopea, hcall]
    simp [hg e hcall]

theorem runHooks_no_success (basedir : String) :
    ∀ (trace : List HookEvent) (s : RunState),
      s.update_success = false →
      (∀ e ∈ trace, isSuccessfulBeforeUi basedir e = false) →
      (runHooks basedir s trace).update_success = false ∧
      (runHooks basedir s trace).mounts = s.mounts := by
  intro trace
  induction trace with
  | nil => intro s hs _; exact ⟨hs, rfl⟩
  | cons e rest ih =>
    intro s hs hall
    have he : isSuccessfulBeforeUi basedir e = false := hall e (List.mem_cons_self e rest)
    have hrest : ∀ e2 ∈ rest, isSuccessfulBeforeUi basedir e2 = false :=
      fun e2 h2 => hall e2 (List.mem_cons_of_mem e h2)
    have hstep : (stepHook basedir s e).update_success = false ∧
        (stepHook basedir s e).mounts = s.mounts := by
      cases e with
      | beforeUi g data =>
        rw [isSuccessfulBeforeUi] at he
        rw [stepHook]
        cases hcall : on_before_ui g basedir data with
        | ok r =>
          obtain ⟨b, ls⟩ := r
          rw [hcall] at he
          cases b with
          | false => exact ⟨rfl, rfl⟩
          | true => simp at he
        | error ex => exact ⟨hs, rfl⟩
      | uiSettings => exact ⟨hs, rfl⟩
      | uiTabs exts read => exact ⟨hs, rfl⟩
      | appStarted c =>
        rw [stepHook, hs]
        constructor <;> simp [on_app_started]
    obtain ⟨h1, h2⟩ := ih (stepHook basedir s e) hstep.1 hrest
    exact ⟨h1, h2.trans hstep.2⟩

/-! ## Claim theorems -/

/-- C1: for every value of the provisioning flag (and collaborator calls that
do not raise), `on_app_started` mounts the static handler — rooted at
`<app dir>/www.photopea.com` with `html=True`, at URL path `/photopea`,
named "photopea" — exactly when the flag is true; when the flag is false it
mounts nothing and emits exactly one warning-level log record. -/
theorem app_started_mounts_iff_flag (basedir : String) (flag : Bool) (c : Collab)
    (hsf : c.staticFilesCheck (joinPath (photopea_app_dir basedir) "www.photopea.com") true
      = .ok ())
    (hm : c.mountCall "/photopea"
      ⟨joinPath (photopea_app_dir basedir) "www.photopea.com", true⟩ "photopea" = .ok ()) :
    on_app_started flag c basedir =
      .ok (if flag then
            ([⟨"/photopea", ⟨joinPath (photopea_app_dir basedir) "www.photopea.com", true⟩,
               "photopea"⟩], [])
          else
            ([], [⟨LogLevel.warning, "Photopea not loaded due to update failure!"⟩])) ∧
    ((∃ ms ls, on_app_started flag c basedir = .ok (ms, ls) ∧ ms ≠ []) ↔ flag = true) := by
  cases flag with
  | false =>
    refine ⟨rfl, ?_⟩
    constructor
    · rintro ⟨ms, ls, hok, hne⟩
      rw [show on_app_started false c basedir
          = .ok ([], [⟨LogLevel.warning, "Photopea not loaded due to update failure!"⟩])
        from rfl] at hok
      cases hok
      exact absurd rfl hne
    · intro hf; cases hf
  | true =>
    have hres : on_app_started true c basedir =
        .ok ([⟨"/photopea", ⟨joinPath (photopea_app_dir basedir) "www.photopea.com", true⟩,
              "photopea"⟩], []) := by
      rw [on_app_started]
      rw [if_pos rfl, hsf, hm]
    refine ⟨by rw [hres]; rfl, ?_⟩
    simp only [iff_true]
    exact ⟨_, _, hres, by simp⟩

/-- C1 witness: with a succeeding collaborator and the flag true, the handler
is mounted. -/
theorem app_started_mounts_iff_flag_witness :
    on_app_started true okCollab "b" =
      .ok ([⟨"/photopea", ⟨joinPath (photopea_app_dir "b") "www.photopea.com", true⟩,
            "photopea"⟩], []) := by
  have h := app_started_mounts_iff_flag "b" true okCollab rfl rfl
  simpa using h.1

/-- C2 counterexample: a `KeyboardInterrupt` raised by the clone call derives
only from `BaseException`, so `except Exception:` does not catch it and the
exception propagates out of `update_photopea` — refuting the claim that
every exception, regardless of its kind, is caught. -/
theorem update_photopea_base_exception_escapes :
    update_photopea kbGit "u" "d" none = .error ⟨true, "KeyboardInterrupt"⟩ := rfl

/-- C2 (amended): the provision operation returns true when the clone call
succeeds; every `Exception`-derived exception raised by the clone call is
caught, produces one critical-level log record and makes the operation
return false with no error classification; an exception outside the
`Exception` hierarchy (e.g. `KeyboardInterrupt`) propagates to the caller. -/
theorem update_photopea_error_policy (g : GitClone) (u d : String) (h : Option String) :
    (g u d "Photopea" h = .ok () → update_photopea g u d h = .ok (true, [])) ∧
    (∀ e : PyExc, g u d "Photopea" h = .error e → e.isBaseOnly = false →
      update_photopea g u d h =
        .ok (false, [⟨LogLevel.critical, "Failed to update Photopea, will not load!"⟩])) ∧
    (∀ e : PyExc, g u d "Photopea" h = .error e → e.isBaseOnly = true →
      update_photopea g u d h = .error e) := by
  refine ⟨?_, ?_, ?_⟩
  · intro hcall
    rw [update_photopea, hcall]
  · intro e hcall hbase
    rw [update_photopea, hcall]
    simp [hbase]
  · intro e hcall hbase
    rw [update_photopea, hcall]
    simp [hbase]

/-- C2 witness: a succeeding clone call makes `update_photopea` return
`true` with no log record. -/
theorem update_photopea_error_policy_witness :
    update_photopea okGit "u" "d" none = .ok (true, []) :=
  (update_photopea_error_policy okGit "u" "d" none).1 rfl

/-- C3: the before-UI hook is registered exactly once; it reads the source
URL and revision from the settings store under the fixed keys with the fixed
defaults (the public repository URL, empty revision), translates an empty
revision to `None` before passing it to the clone utility, and stores the
boolean returned by the provision operation — and nothing else — as the
Provisioning Outcome. -/
theorem before_ui_provisions_once (g : GitClone) (basedir : String) (data : SettingsData)
    (s : RunState) (b : Bool) (logs : List LogRecord)
    (h : on_before_ui g basedir data = .ok (b, logs)) :
    moduleRegistrations.beforeUi = ["on_before_ui"] ∧
    on_before_ui g basedir data =
      update_photopea g
        ((data "photopea_repo_url").getD
          "https://git.nixnet.services/DUOLabs333/Photopea-Offline.git")
        (photopea_app_dir basedir)
        (if (data "photopea_commit_hash").getD "" ≠ ""
          then some ((data "photopea_commit_hash").getD "") else none) ∧
    (stepHook basedir s (.beforeUi g data)).update_success = b ∧
    (stepHook basedir s (.beforeUi g data)).mounts = s.mounts := by
  refine ⟨rfl, rfl, ?_, ?_⟩ <;> rw [stepHook, h]

/-- C3 witness: with no stored settings and a succeeding clone behaviour,
the recorded Provisioning Outcome is `true`. -/
theorem before_ui_provisions_once_witness :
    (stepHook "b" initialRunState (.beforeUi okGit (fun _ => none))).update_success = true := by
  have h := before_ui_provisions_once okGit "b" (fun _ => none) initialRunState true [] rfl
  exact h.2.2.1

/-- C4 counterexample: a collaborator whose `mount` call raises an ordinary
`Exception` makes `on_app_started` raise — refuting the claim that every
lifecycle hook returns without raising for every behaviour of the external
collaborators. -/
theorem app_started_can_raise :
    on_app_started true badMountCollab "b" = .error ⟨false, "RuntimeError"⟩ := rfl

/-- C4 (amended): the before-UI hook returns without raising whenever every
exception the clone utility raises is `Exception`-derived (provisioning
failures are contained), and the after-start hook returns without raising
whenever the provisioning flag is false; but an exception raised by a
collaborator inside a hook body — a `BaseException`-only exception from the
clone call, or any exception from the static-files constructor or the mount
call when the flag is true — propagates to the host. -/
theorem hooks_containment_policy :
    (∀ (g : GitClone) (basedir : String) (data : SettingsData),
      (∀ u d nm h e, g u d nm h = .error e → e.isBaseOnly = false) →
      ∃ r, on_before_ui g basedir data = .ok r) ∧
    (∀ (basedir : String) (c : Collab),
      on_app_started false c basedir =
        .ok ([], [⟨LogLevel.warning, "Photopea not loaded due to update failure!"⟩])) := by
  constructor
  · intro g basedir data hg
    exact update_photopea_ok_of_no_base g _ _ _ (fun e he => hg _ _ _ _ e he)
  · intro basedir c
    rfl

/-- C4 witness: a clone behaviour raising an ordinary `Exception` is
contained by the before-UI hook. -/
theorem hooks_containment_policy_witness :
    ∃ r, on_before_ui failGit "b" (fun _ => none) = .ok r := by
  apply hooks_containment_policy.1
  intro u d nm h e he
  injection he with h1
  rw [← h1]

/-- C5: the tab composer's `controlnet_exists` is true iff some active
extension's name contains the substring "controlnet" (the loop is the
short-circuiting linear scan); the two companion-send buttons are visible
exactly when it is true, and the help message exactly when it is false. -/
theorem companion_controls_visibility (exts : List String) (read : Except PyExc Int) :
    ((on_ui_tabs exts read).controlnet_exists = true ↔
      ∃ nm ∈ exts, ("controlnet" : String).data <:+: nm.data) ∧
    (on_ui_tabs exts read).controlnet_exists = controlnetScanLoop exts ∧
    (on_ui_tabs exts read).send_t2i_cn.visible = (on_ui_tabs exts read).controlnet_exists ∧
    (on_ui_tabs exts read).send_i2i_cn.visible = (on_ui_tabs exts read).controlnet_exists ∧
    (on_ui_tabs exts read).cnMissingHelp.visible
      = !(on_ui_tabs exts read).controlnet_exists := by
  have hc : (on_ui_tabs exts read).controlnet_exists = controlnetScanLoop exts := rfl
  refine ⟨?_, hc, rfl, rfl, rfl⟩
  rw [hc, controlnetScanLoop_eq_any, List.any_eq_true]
  constructor
  · rintro ⟨nm, hmem, hsub⟩
    exact ⟨nm, hmem, (strHasSub_iff nm "controlnet").1 hsub⟩
  · rintro ⟨nm, hmem, hsub⟩
    exact ⟨nm, hmem, (strHasSub_iff nm "controlnet").2 hsub⟩

/-- C6: the target-index dropdown is built from the model-count setting `n`
as the option list `["0", ..., str(n-1)]` with default value "0" and is
visible iff `n > 1`; when the read of the setting raises (absent attribute
included), the count defaults to 1, so the options are `["0"]`, the selector
is hidden and index "0" is used. -/
theorem model_count_dropdown (exts : List String) (read : Except PyExc Int) :
    (∀ n : Int, read = .ok n →
      (on_ui_tabs exts read).select_target_index.choices =
        (List.range n.toNat).map (fun i => toString i) ∧
      (on_ui_tabs exts read).select_target_index.value = "0" ∧
      ((on_ui_tabs exts read).select_target_index.visible = true ↔ 1 < n)) ∧
    (∀ e : PyExc, read = .error e →
      (on_ui_tabs exts read).select_target_index.choices = ["0"] ∧
      (on_ui_tabs exts read).select_target_index.value = "0" ∧
      (on_ui_tabs exts read).select_target_index.visible = false) := by
  constructor
  · rintro n rfl
    refine ⟨rfl, rfl, ?_⟩
    simp [on_ui_tabs]
  · rintro e rfl
    refine ⟨?_, rfl, rfl⟩
    rfl

/-- C6 witness: with the setting read as 3, the options are
`["0", "1", "2"]` and the selector is visible; with an erroring read it is
hidden. -/
theorem model_count_dropdown_witness :
    (on_ui_tabs [] (.ok 3)).select_target_index.choices = ["0", "1", "2"] ∧
    (on_ui_tabs [] (.ok 3)).select_target_index.visible = true ∧
    (on_ui_tabs [] (.error ⟨false, "AttributeError"⟩)).select_target_index.visible = false := by
  have h1 := (model_count_dropdown [] (.ok 3)).1 3 rfl
  have h2 := (model_count_dropdown [] (.error ⟨false, "AttributeError"⟩)).2
    ⟨false, "AttributeError"⟩ rfl
  refine ⟨?_, ?_, h2.2.2⟩
  · rw [h1.1]; rfl
  · exact h1.2.2.2 (by decide)

/-- C7: the trigger wiring is the fixed table: the load button is bound to
`loadPhotopea`; the four directional send buttons each pass the selected
target index and are bound to the parameterized image-send with
(destination, companion-flag) = (txt2img, true), (extras, false),
(img2img, false), (img2img, true) respectively — four pairwise distinct
action strings — and the mask-selection button is bound unconditionally to
`sendImageWithMaskSelectionToWebUi`. -/
theorem click_bindings_table (exts : List String) (read : Except PyExc Int) :
    (on_ui_tabs exts read).clicks =
      [ ⟨"send_t2i_cn", ["select_target_index"], getAndSendJs "txt2img" true⟩,
        ⟨"send_extras", ["select_target_index"], getAndSendJs "extras" false⟩,
        ⟨"send_i2i", ["select_target_index"], getAndSendJs "img2img" false⟩,
        ⟨"send_i2i_cn", ["select_target_index"], getAndSendJs "img2img" true⟩,
        ⟨"send_selection_inpaint", [], "sendImageWithMaskSelectionToWebUi"⟩,
        ⟨"show_photopea", [], "loadPhotopea"⟩ ] ∧
    [getAndSendJs "txt2img" true, getAndSendJs "extras" false,
      getAndSendJs "img2img" false, getAndSendJs "img2img" true].Pairwise (· ≠ ·) := by
  constructor
  · rfl
  · decide

/-- C8: the settings hook registers exactly the two keys `photopea_repo_url`
(default the public repository URL) and `photopea_commit_hash` (default
empty), each as an interactive single-line Textbox in the "photopea"
section, and it is idempotent: a second call leaves the store unchanged. -/
theorem settings_registration (s : OptStore) :
    on_ui_settings (on_ui_settings s) = on_ui_settings s ∧
    on_ui_settings [] =
      [("photopea_repo_url", repoUrlInfo), ("photopea_commit_hash", commitHashInfo)] ∧
    repoUrlInfo =
      ⟨"https://git.nixnet.services/DUOLabs333/Photopea-Offline.git",
        "Photopea repository URL", "Textbox", true, 1, ("photopea", "Photopea")⟩ ∧
    commitHashInfo =
      ⟨"", "Photopea repository commit hash", "Textbox", true, 1,
        ("photopea", "Photopea")⟩ := by
  have hne : "photopea_commit_hash" ≠ "photopea_repo_url" := by decide
  refine ⟨?_, rfl, rfl, rfl⟩
  rw [on_ui_settings, on_ui_settings]
  rw [add_option_eq_of_lookup "photopea_repo_url" repoUrlInfo]
  · rw [add_option_eq_of_lookup "photopea_commit_hash" commitHashInfo]
    exact lookupOpt_add_option_self _ _ _
  · rw [lookupOpt_add_option_other _ _ _ hne]
    exact lookupOpt_add_option_self _ _ _

/-- C9: the Provisioning Outcome flag is false at module load; in any run in
which no before-UI invocation recorded a success, nothing is ever mounted,
and an after-start invocation with the flag false mounts nothing and emits
only the single warning record — a mount can occur only after a successful
provisioning has been recorded. -/
theorem mount_only_after_recorded_success :
    initialRunState.update_success = false ∧
    (∀ (basedir : String) (c : Collab),
      on_app_started false c basedir =
        .ok ([], [⟨LogLevel.warning, "Photopea not loaded due to update failure!"⟩])) ∧
    (∀ (basedir : String) (trace : List HookEvent),
      (∀ e ∈ trace, isSuccessfulBeforeUi basedir e = false) →
      (runHooks basedir initialRunState trace).mounts = []) := by
  refine ⟨rfl, fun basedir c => rfl, fun basedir trace h => ?_⟩
  exact (runHooks_no_success basedir trace initialRunState rfl h).2

/-- C9 witness: a run whose hooks are a settings build and an app start —
no before-UI at all — mounts nothing. -/
theorem mount_only_after_recorded_success_witness :
    (runHooks "b" initialRunState
      [HookEvent.uiSettings, HookEvent.appStarted okCollab]).mounts = [] := by
  apply mount_only_after_recorded_success.2.2
  intro e he
  rcases List.mem_cons.1 he with rfl | h2
  · rfl
  · rcases List.mem_cons.1 h2 with rfl | h3
    · rfl
    · exact absurd h3 (List.not_mem_nil e)

/-- C10: when the model-count setting reads as 0, the dropdown is built with
an empty option list while its default value stays "0" — a value not among
its options — and it is hidden; the present value 0 is not replaced by the
absent-value fallback of 1. -/
theorem model_count_zero_dropdown :
    (on_ui_tabs [] (.ok 0)).select_target_index.choices = [] ∧
    (on_ui_tabs [] (.ok 0)).select_target_index.value = "0" ∧
    (on_ui_tabs [] (.ok 0)).select_target_index.value ∉
      (on_ui_tabs [] (.ok 0)).select_target_index.choices ∧
    (on_ui_tabs [] (.ok 0)).select_target_index.visible = false ∧
    (on_ui_tabs [] (.ok 0)).select_target_index.choices ≠
      (on_ui_tabs [] (.error ⟨false, "AttributeError"⟩)).select_target_index.choices := by
  refine ⟨rfl, rfl, ?_, rfl, ?_⟩
  · decide
  · decide

end PhotopeaTab
